import Mathlib

/-!
Shallow embedding of the pipeline execution and status-streaming subsystem of
the app_ef backend: the execute endpoint with its in-memory execution store and
background run task (src/backend/app/api/v1/pipelines.py), the configured
concurrency limit (src/backend/app/core/config.py), and the WebSocket status
relay (src/backend/app/api/websockets.py).

Modelling conventions: timestamps (datetime.utcnow().isoformat()) are abstract
naturals, float progress values are rationals, the uuid4 generator is an
externally supplied key whose freshness is a hypothesis, the Python dict
holding executions is an association list with replace-on-set semantics, and
the Processing Engine run is summarised by the sequence of progress callbacks
it issues followed by its outcome (normal return or raised exception).
-/

namespace AppEf

/-- Status strings written by the pipeline routes: a record is created as
"running" (pipelines.py line 176) and finishes as "completed" (line 197) or
"failed" (line 204). -/
inductive ExecStatus
  | running
  | completed
  | failed
deriving DecidableEq

/-- The execution dict built at pipelines.py lines 173-182 and mutated by the
background task and the progress callback. -/
structure ExecutionRecord where
  execution_id : String
  pipeline_name : String
  status : ExecStatus
  progress : Rat
  message : String
  started_at : Nat
  completed_at : Option Nat
  error : Option String
deriving DecidableEq

/-- HTTPException raised by the routes; only 404 matters to the claims. -/
inductive HTTPError
  | notFound (detail : String)
deriving DecidableEq

/-- The module-global _pipeline_executions dict (pipelines.py line 21),
keyed by execution id. -/
abbrev Store := List (String × ExecutionRecord)

/-- Dict assignment: _pipeline_executions[execution_id] = execution
(pipelines.py line 183); replaces any previous binding of the key. -/
def storeSet (s : Store) (k : String) (v : ExecutionRecord) : Store :=
  (k, v) :: s.filter (fun kv => kv.1 != k)

/-- Dict lookup / membership test on _pipeline_executions. -/
def storeLookup (s : Store) (k : String) : Option ExecutionRecord :=
  List.lookup k s

/-- Settings.max_concurrent_pipelines (config.py line 50). The pipeline
routes never read this value. -/
def max_concurrent_pipelines : Nat := 5

/-- Number of stored executions currently in status "running". -/
def runningCount (s : Store) : Nat :=
  (s.filter (fun kv => kv.2.status == ExecStatus.running)).length

/-- The execution dict as first created (pipelines.py lines 173-182). -/
def initialExecution (execution_id pipeline_name : String) (now : Nat) :
    ExecutionRecord :=
  { execution_id := execution_id,
    pipeline_name := pipeline_name,
    status := ExecStatus.running,
    progress := 0,
    message := "Starting pipeline execution...",
    started_at := now,
    completed_at := none,
    error := none }

/-- Status code declared on the execute route (pipelines.py line 151). -/
def execute_pipeline_status_code : Nat := 202

/-- Admission path of execute_pipeline (pipelines.py lines 162-183 and 213):
verify the pipeline name is in wrapper.list_pipelines, else raise 404 without
touching the store; otherwise create the record, store it, and return it as
the response body. The background task runs afterwards (see runPipeline). -/
def executePipeline (store : Store) (pipelines : List String)
    (pipeline_name execution_id : String) (now : Nat) :
    Store × Except HTTPError ExecutionRecord :=
  if pipeline_name ∈ pipelines then
    let execution := initialExecution execution_id pipeline_name now
    (storeSet store execution_id execution, Except.ok execution)
  else
    (store, Except.error (HTTPError.notFound
      ("Pipeline " ++ pipeline_name ++ " not found")))

/-- get_execution_status (pipelines.py lines 229-241): 404 when the id is not
a key of _pipeline_executions, otherwise the stored record. Read-only. -/
def getExecutionStatus (store : Store) (execution_id : String) :
    Except HTTPError ExecutionRecord :=
  match storeLookup store execution_id with
  | none => Except.error (HTTPError.notFound
      ("Execution " ++ execution_id ++ " not found"))
  | some r => Except.ok r

/-- progress_callback (pipelines.py lines 189-191): overwrites the progress
and message fields of the execution dict with the reported values, verbatim. -/
def applyProgressCallback (r : ExecutionRecord) (progress : Rat)
    (message : String) : ExecutionRecord :=
  { r with progress := progress, message := message }

/-- Effect of a sequence of progress-callback invocations issued by
wrapper.run_pipeline, in order. -/
def applyCallbacks (r : ExecutionRecord) (cbs : List (Rat × String)) :
    ExecutionRecord :=
  cbs.foldl (fun acc pm => applyProgressCallback acc pm.1 pm.2) r

/-- How the awaited wrapper.run_pipeline call ends: a normal return, or an
exception carrying its str(e) description. -/
inductive EngineOutcome
  | ok
  | error (e : String)
deriving DecidableEq

/-- Tail of run_pipeline (pipelines.py lines 196-208): on normal return mark
completed, force progress to 1.0, set the success message and stamp
completed_at; on exception mark failed, record str(e) and stamp
completed_at. -/
def finalizeRun (r : ExecutionRecord) (outcome : EngineOutcome) (now : Nat) :
    ExecutionRecord :=
  match outcome with
  | EngineOutcome.ok =>
      { r with status := ExecStatus.completed,
               progress := 1,
               message := "Pipeline completed successfully",
               completed_at := some now }
  | EngineOutcome.error e =>
      { r with status := ExecStatus.failed,
               error := some e,
               completed_at := some now }

/-- The whole background task run_pipeline (pipelines.py lines 186-208) as it
acts on the execution record: the engine issues its progress callbacks, then
returns or raises; the catch-all except means the task always yields a record
and never re-raises towards the HTTP caller. -/
def runPipeline (r : ExecutionRecord) (cbs : List (Rat × String))
    (outcome : EngineOutcome) (now : Nat) : ExecutionRecord :=
  finalizeRun (applyCallbacks r cbs) outcome now

/-- One mutation applied to a stored execution record while the background
task is alive: a progress callback (only issued while the engine call is in
flight, i.e. status still "running") or the final transition. -/
inductive Step : ExecutionRecord → ExecutionRecord → Prop
  | callback (r : ExecutionRecord) (hr : r.status = ExecStatus.running)
      (p : Rat) (m : String) : Step r (applyProgressCallback r p m)
  | finalize (r : ExecutionRecord) (hr : r.status = ExecStatus.running)
      (o : EngineOutcome) (now : Nat) : Step r (finalizeRun r o now)

/-- Records observable in the store: the freshly created record and anything
the background task's mutations can produce from it. -/
inductive Reachable : ExecutionRecord → Prop
  | init (execution_id pipeline_name : String) (now : Nat) :
      Reachable (initialExecution execution_id pipeline_name now)
  | step {r r' : ExecutionRecord} :
      Reachable r → Step r r' → Reachable r'

/-- One mutation of a record, as data, for quantifying over update
sequences. -/
inductive RecordUpdate
  | callback (p : Rat) (m : String)
  | finalize (o : EngineOutcome) (now : Nat)

/-- Apply one RecordUpdate. -/
def applyUpdate (r : ExecutionRecord) : RecordUpdate → ExecutionRecord
  | RecordUpdate.callback p m => applyProgressCallback r p m
  | RecordUpdate.finalize o now => finalizeRun r o now

/-- Messages sent by the polling loop of websocket_execution_updates
(websockets.py lines 36-47), given a store that is not being mutated
concurrently, with fuel bounding the number of iterations observed. Returns
the snapshots sent and whether the loop broke (server closed the channel);
false means the loop was still running when the fuel ran out. -/
def wsLoop (store : Store) (execution_id : String) :
    Nat → List ExecutionRecord × Bool
  | 0 => ([], false)
  | fuel + 1 =>
    match storeLookup store execution_id with
    | some st =>
      if st.status ∈ [ExecStatus.completed, ExecStatus.failed] then
        ([st], true)
      else
        let rest := wsLoop store execution_id fuel
        (st :: rest.1, rest.2)
    | none => wsLoop store execution_id fuel

/-- websocket_execution_updates (websockets.py lines 30-47): the initial send
(lines 32-33, only when the id is a key of the store) followed by the polling
loop. -/
def wsHandler (store : Store) (execution_id : String) (fuel : Nat) :
    List ExecutionRecord × Bool :=
  let initialSends :=
    match storeLookup store execution_id with
    | some st => [st]
    | none => ([] : List ExecutionRecord)
  let looped := wsLoop store execution_id fuel
  (initialSends ++ looped.1, looped.2)

/-- Store after six execute requests for an existing pipeline accepted while
none of the background tasks has finished (the claimed limit is five). -/
def storeAfterSixAdmissions : Store :=
  let s1 := (executePipeline [] ["p"] "p" "e1" 0).1
  let s2 := (executePipeline s1 ["p"] "p" "e2" 0).1
  let s3 := (executePipeline s2 ["p"] "p" "e3" 0).1
  let s4 := (executePipeline s3 ["p"] "p" "e4" 0).1
  let s5 := (executePipeline s4 ["p"] "p" "e5" 0).1
  (executePipeline s5 ["p"] "p" "e6" 0).1

theorem storeLookup_set_self (s : Store) (k : String) (v : ExecutionRecord) :
    storeLookup (storeSet s k v) k = some v := by
  simp [storeLookup, storeSet, List.lookup]

theorem applyUpdate_preserves_identity (r : ExecutionRecord) (u : RecordUpdate) :
    (applyUpdate r u).execution_id = r.execution_id
    ∧ (applyUpdate r u).pipeline_name = r.pipeline_name
    ∧ (applyUpdate r u).started_at = r.started_at := by
  cases u with
  | callback p m => exact ⟨rfl, rfl, rfl⟩
  | finalize o now =>
    cases o with
    | ok => exact ⟨rfl, rfl, rfl⟩
    | error e => exact ⟨rfl, rfl, rfl⟩

theorem wsLoop_unknown (store : Store) (execution_id : String)
    (h : storeLookup store execution_id = none) :
    ∀ fuel, wsLoop store execution_id fuel = ([], false) := by
  intro fuel
  induction fuel with
  | zero => rfl
  | succ k ih => simp [wsLoop, h, ih]

/-- C1: the execute route admits every accepted request immediately with
status "running" and never consults max_concurrent_pipelines (no limiter
exists anywhere in the code): six simultaneous requests for an existing
pipeline leave six executions running at once, above the configured five. -/
theorem admission_ignores_concurrency_limit :
    runningCount storeAfterSixAdmissions = 6
    ∧ max_concurrent_pipelines < runningCount storeAfterSixAdmissions := by
  constructor <;> decide

/-- C2 counterexample: a progress callback reporting 0.0 after the stored
progress reached 1.0 moves the stored value backward (the claim says it is
left unchanged), and a report of 2.0 is stored as 2.0, outside [0.0, 1.0]
(the claim says reported values are clamped). -/
theorem progress_callback_unclamped_cex :
    (applyProgressCallback (initialExecution "e" "p" 0) 1 "done").progress = 1
    ∧ (applyProgressCallback
        (applyProgressCallback (initialExecution "e" "p" 0) 1 "done") 0 "back").progress = 0
    ∧ ((0 : Rat) < 1)
    ∧ (applyProgressCallback (initialExecution "e" "p" 0) 2 "over").progress = 2
    ∧ ((1 : Rat) < 2) := by
  refine ⟨rfl, rfl, ?_, rfl, ?_⟩ <;> norm_num

/-- C2 amended: each progress-callback invocation overwrites the stored
progress and message with the reported values verbatim — after any sequence
of callbacks the stored progress equals the most recently reported value,
with no clamping to [0.0, 1.0] and no protection against decreases. -/
theorem progress_callback_stores_reported_value (r : ExecutionRecord)
    (cbs : List (Rat × String)) (p : Rat) (m : String) :
    (applyCallbacks r (cbs ++ [(p, m)])).progress = p
    ∧ (applyCallbacks r (cbs ++ [(p, m)])).message = m := by
  simp [applyCallbacks, List.foldl_append, applyProgressCallback]

/-- C3 counterexample: a subscriber connecting to an already-completed
execution is sent the terminal snapshot twice — once by the initial send and
once by the first loop iteration — not exactly once as claimed, before the
server closes the channel. -/
theorem terminal_subscription_cex :
    (wsHandler [("e", finalizeRun (initialExecution "e" "p" 0) EngineOutcome.ok 1)] "e" 1).1.length = 2
    ∧ (wsHandler [("e", finalizeRun (initialExecution "e" "p" 0) EngineOutcome.ok 1)] "e" 1).2 = true := by
  exact ⟨rfl, rfl⟩

/-- C3 amended: a subscription opened on an execution already in a terminal
state receives the terminal snapshot exactly twice (initial send plus one
loop iteration) and the server then closes the channel. -/
theorem terminal_subscription_snapshots (store : Store) (execution_id : String)
    (r : ExecutionRecord) (hfound : storeLookup store execution_id = some r)
    (hterm : r.status = ExecStatus.completed ∨ r.status = ExecStatus.failed)
    (fuel : Nat) (hfuel : 0 < fuel) :
    wsHandler store execution_id fuel = ([r, r], true) := by
  obtain ⟨k, rfl⟩ := Nat.exists_eq_succ_of_ne_zero (Nat.pos_iff_ne_zero.mp hfuel)
  simp [wsHandler, wsLoop, hfound, hterm]

/-- Witness for C3 amended at a concrete terminal store. -/
theorem terminal_subscription_snapshots_witness :
    wsHandler [("e", finalizeRun (initialExecution "e" "p" 0) EngineOutcome.ok 1)] "e" 3
      = ([finalizeRun (initialExecution "e" "p" 0) EngineOutcome.ok 1,
          finalizeRun (initialExecution "e" "p" 0) EngineOutcome.ok 1], true) :=
  terminal_subscription_snapshots
    [("e", finalizeRun (initialExecution "e" "p" 0) EngineOutcome.ok 1)] "e"
    (finalizeRun (initialExecution "e" "p" 0) EngineOutcome.ok 1)
    rfl (Or.inl rfl) 3 (by decide)

/-- C4: when the engine call returns normally the record ends completed with
progress forced to 1.0 and completed_at stamped; when it raises, the record
ends failed with the exception text in error and completed_at stamped — and
in both cases the background task yields a record rather than re-raising, so
nothing propagates to the HTTP caller who already got the 202 response. -/
theorem run_pipeline_finalization (r : ExecutionRecord)
    (cbs : List (Rat × String)) (now : Nat) :
    ((runPipeline r cbs EngineOutcome.ok now).status = ExecStatus.completed
      ∧ (runPipeline r cbs EngineOutcome.ok now).progress = 1
      ∧ (runPipeline r cbs EngineOutcome.ok now).completed_at = some now)
    ∧ ∀ e, (runPipeline r cbs (EngineOutcome.error e) now).status = ExecStatus.failed
      ∧ (runPipeline r cbs (EngineOutcome.error e) now).error = some e
      ∧ (runPipeline r cbs (EngineOutcome.error e) now).completed_at = some now := by
  exact ⟨⟨rfl, rfl, rfl⟩, fun e => ⟨rfl, rfl, rfl⟩⟩

/-- C5: a run request naming an unknown pipeline fails with a 404 error and
returns the store unchanged (no ExecutionRecord is created), and a status
query for an unknown execution id fails with a 404 error (the query is
read-only by construction). -/
theorem notfound_requests_no_side_effects :
    (∀ (store : Store) (pipelines : List String)
        (pipeline_name execution_id : String) (now : Nat),
      pipeline_name ∉ pipelines →
        executePipeline store pipelines pipeline_name execution_id now
          = (store, Except.error (HTTPError.notFound
              ("Pipeline " ++ pipeline_name ++ " not found"))))
    ∧ ∀ (store : Store) (execution_id : String),
        storeLookup store execution_id = none →
          getExecutionStatus store execution_id
            = Except.error (HTTPError.notFound
                ("Execution " ++ execution_id ++ " not found")) := by
  constructor
  · intro store pipelines pipeline_name execution_id now hnot
    simp [executePipeline, hnot]
  · intro store execution_id hnone
    simp [getExecutionStatus, hnone]

/-- Witness for C5 at concrete unknown names. -/
theorem notfound_requests_no_side_effects_witness :
    executePipeline [] ["a"] "b" "e" 0
      = ([], Except.error (HTTPError.notFound ("Pipeline " ++ "b" ++ " not found")))
    ∧ getExecutionStatus [] "e"
      = Except.error (HTTPError.notFound ("Execution " ++ "e" ++ " not found")) :=
  ⟨notfound_requests_no_side_effects.1 [] ["a"] "b" "e" 0 (by decide),
   notfound_requests_no_side_effects.2 [] "e" rfl⟩

/-- C6: over every record the store can hold, completed_at is set exactly
when the status is terminal, and no mutation ever starts from a record whose
completed_at is already set (so the stamp is written exactly once, at the
transition into the terminal state). -/
theorem completed_at_iff_terminal (r : ExecutionRecord) (hr : Reachable r) :
    (r.completed_at.isSome ↔
      (r.status = ExecStatus.completed ∨ r.status = ExecStatus.failed))
    ∧ ∀ r', Step r r' → r.completed_at = none := by
  have hiff : r.completed_at.isSome ↔
      (r.status = ExecStatus.completed ∨ r.status = ExecStatus.failed) := by
    induction hr with
    | init execution_id pipeline_name now => simp [initialExecution]
    | step hprev hstep ih =>
      cases hstep with
      | callback hrun p m => simpa [applyProgressCallback] using ih
      | finalize hrun o now =>
        cases o with
        | ok => simp [finalizeRun]
        | error e => simp [finalizeRun]
  refine ⟨hiff, ?_⟩
  intro r' hstep
  have hrun : r.status = ExecStatus.running := by
    cases hstep with
    | callback h _ _ => exact h
    | finalize h _ _ => exact h
  cases hc : r.completed_at with
  | none => rfl
  | some t =>
    have hterm := hiff.mp (by simp [hc])
    rw [hrun] at hterm
    rcases hterm with h | h <;> cases h

/-- Witness for C6 at the freshly created record. -/
theorem completed_at_iff_terminal_witness :
    (initialExecution "e" "p" 0).completed_at.isSome ↔
      ((initialExecution "e" "p" 0).status = ExecStatus.completed
        ∨ (initialExecution "e" "p" 0).status = ExecStatus.failed) :=
  (completed_at_iff_terminal (initialExecution "e" "p" 0)
    (Reachable.init "e" "p" 0)).1

/-- C7 counterexample: an engine failure before any progress callback yields
a reachable record with status failed and progress still 0.0, contradicting
the claim that progress 0.0 occurs only in status pending or running. -/
theorem failed_record_zero_progress_cex :
    Reachable (finalizeRun (initialExecution "e" "p" 0) (EngineOutcome.error "boom") 1)
    ∧ (finalizeRun (initialExecution "e" "p" 0) (EngineOutcome.error "boom") 1).status
        = ExecStatus.failed
    ∧ (finalizeRun (initialExecution "e" "p" 0) (EngineOutcome.error "boom") 1).progress = 0 :=
  ⟨Reachable.step (Reachable.init "e" "p" 0)
      (Step.finalize (initialExecution "e" "p" 0) rfl (EngineOutcome.error "boom") 1),
   rfl, rfl⟩

/-- C7 amended: progress is exactly 1.0 whenever the status is completed; a
record that fails keeps whatever progress was last reported, which can be
0.0 when the engine fails before any callback. -/
theorem progress_one_when_completed (r : ExecutionRecord) (hr : Reachable r) :
    (r.status = ExecStatus.completed → r.progress = 1)
    ∧ ∀ e now, (finalizeRun r (EngineOutcome.error e) now).progress = r.progress := by
  constructor
  · induction hr with
    | init execution_id pipeline_name now =>
      intro h
      simp [initialExecution] at h
    | step hprev hstep ih =>
      cases hstep with
      | callback hrun p m =>
        intro h
        simp [applyProgressCallback, hrun] at h
      | finalize hrun o now =>
        cases o with
        | ok =>
          intro _
          simp [finalizeRun]
        | error e =>
          intro h
          simp [finalizeRun] at h
  · intro e now
    simp [finalizeRun]

/-- Witness for C7 amended at a completed record. -/
theorem progress_one_when_completed_witness :
    (finalizeRun (initialExecution "e" "p" 0) EngineOutcome.ok 1).progress = 1 :=
  (progress_one_when_completed
    (finalizeRun (initialExecution "e" "p" 0) EngineOutcome.ok 1)
    (Reachable.step (Reachable.init "e" "p" 0)
      (Step.finalize (initialExecution "e" "p" 0) rfl EngineOutcome.ok 1))).1 rfl

/-- C8: for a request naming an existing pipeline and a fresh uuid, the
route responds 202 with the created record — carrying the id, the pipeline
name, status running, progress 0.0, the starting message and started_at —
and the record is stored before the response is returned, so the id resolves
immediately through the status-query route. -/
theorem execute_pipeline_accepted_response (store : Store)
    (pipelines : List String) (pipeline_name execution_id : String) (now : Nat)
    (hpipe : pipeline_name ∈ pipelines)
    (_hfresh : storeLookup store execution_id = none) :
    (executePipeline store pipelines pipeline_name execution_id now).2
        = Except.ok (initialExecution execution_id pipeline_name now)
    ∧ execute_pipeline_status_code = 202
    ∧ (initialExecution execution_id pipeline_name now).execution_id = execution_id
    ∧ (initialExecution execution_id pipeline_name now).pipeline_name = pipeline_name
    ∧ (initialExecution execution_id pipeline_name now).status = ExecStatus.running
    ∧ (initialExecution execution_id pipeline_name now).progress = 0
    ∧ (initialExecution execution_id pipeline_name now).started_at = now
    ∧ getExecutionStatus
        (executePipeline store pipelines pipeline_name execution_id now).1 execution_id
        = Except.ok (initialExecution execution_id pipeline_name now) := by
  refine ⟨?_, rfl, rfl, rfl, rfl, rfl, rfl, ?_⟩
  · simp [executePipeline, hpipe]
  · simp [executePipeline, hpipe, getExecutionStatus, storeLookup_set_self]

/-- Witness for C8 at a concrete request against an empty store. -/
theorem execute_pipeline_accepted_response_witness :
    (executePipeline [] ["p"] "p" "e1" 0).2 = Except.ok (initialExecution "e1" "p" 0)
    ∧ execute_pipeline_status_code = 202
    ∧ (initialExecution "e1" "p" 0).execution_id = "e1"
    ∧ (initialExecution "e1" "p" 0).pipeline_name = "p"
    ∧ (initialExecution "e1" "p" 0).status = ExecStatus.running
    ∧ (initialExecution "e1" "p" 0).progress = 0
    ∧ (initialExecution "e1" "p" 0).started_at = 0
    ∧ getExecutionStatus (executePipeline [] ["p"] "p" "e1" 0).1 "e1"
        = Except.ok (initialExecution "e1" "p" 0) :=
  execute_pipeline_accepted_response [] ["p"] "p" "e1" 0 (by decide) rfl

/-- C9: no sequence of record mutations — progress callbacks, completion or
failure handling — ever changes execution_id, pipeline_name or started_at;
they are fixed at creation. -/
theorem identity_fields_immutable (updates : List RecordUpdate)
    (r : ExecutionRecord) :
    ((updates.foldl applyUpdate r).execution_id = r.execution_id)
    ∧ ((updates.foldl applyUpdate r).pipeline_name = r.pipeline_name)
    ∧ ((updates.foldl applyUpdate r).started_at = r.started_at) := by
  induction updates generalizing r with
  | nil => exact ⟨rfl, rfl, rfl⟩
  | cons u us ih =>
    obtain ⟨h1, h2, h3⟩ := ih (applyUpdate r u)
    obtain ⟨g1, g2, g3⟩ := applyUpdate_preserves_identity r u
    simp only [List.foldl_cons]
    exact ⟨h1.trans g1, h2.trans g2, h3.trans g3⟩

/-- C10: a WebSocket subscription for an execution id absent from the store
sends no snapshot and is never closed by the server — however many loop
iterations are observed, nothing has been sent and the loop has not broken. -/
theorem unknown_execution_ws_silent (store : Store) (execution_id : String)
    (h : storeLookup store execution_id = none) (fuel : Nat) :
    wsHandler store execution_id fuel = ([], false) := by
  simp [wsHandler, h, wsLoop_unknown store execution_id h fuel]

/-- Witness for C10 on the empty store. -/
theorem unknown_execution_ws_silent_witness :
    wsHandler [] "e" 7 = ([], false) :=
  unknown_execution_ws_silent [] "e" rfl 7

end AppEf
